import Mathlib

/-!
Shallow embedding of the `python_rcf_wrapper` package of the
random-cut-forest repository.

The package under `src/` consists of two thin Python classes,
`RandomCutForestModel` (`rcf_model.py`) and `TRandomCutForestModel`
(`trcf_model.py`), that forward to the Java classes
`com.amazon.randomcutforest.RandomCutForest` and
`com.amazon.randomcutforest.parkservices.ThresholdedRandomCutForest`.
The Java engine itself is part of the repository but is not among the
given sources, so its operations are modelled from the specification
(each such definition carries a doc comment starting with
`Modelled from the spec:`).  The Python wrapper methods are translated
directly from `rcf_model.py` and `trcf_model.py`.

Coordinates are modelled as either a rational number or NaN; the wrapper
logic under verification (NaN detection, argument forwarding, default
configuration values) is structural and does not depend on IEEE float
arithmetic.
-/

namespace PyRcf

/-- A single coordinate of a data point: either a finite value (modelled as a
rational) or NaN, which `rcf_model.impute` treats as a missing value. -/
inductive Value
  | nan
  | num (q : ℚ)
deriving DecidableEq, Repr

/-- Numeric reading of a coordinate; NaN is read as 0 where the model needs a
number (the claims under study never depend on this reading at NaN). -/
def vnum : Value → ℚ
  | Value.nan => 0
  | Value.num q => q

/-- Whether a coordinate is NaN (the Python wrapper tests `np.isnan`). -/
def Value.isnan : Value → Bool
  | Value.nan => true
  | Value.num _ => false

/-- `np.isnan(point).sum()` of `rcf_model.impute`: the number of NaN
coordinates of a point. -/
def countNaN (point : List Value) : ℕ :=
  (point.filter Value.isnan).length

/-- `np.argwhere(np.isnan(point)).flatten()` of `rcf_model.impute`: the indices
of the NaN coordinates of a point, in increasing order. -/
def nanIndices (point : List Value) : List ℕ :=
  (List.range point.length).filter (fun i => (point.getD i Value.nan).isnan)

/-- Error taxonomy of section 7 of the spec. -/
inductive RCFError
  | configurationError
  | dimensionMismatch
  | insufficientData
  | numericError
deriving DecidableEq, Repr

/-- Insert a rational into an already sorted list, keeping it sorted. -/
def insertSorted (x : ℚ) : List ℚ → List ℚ
  | [] => [x]
  | y :: ys => if x ≤ y then x :: y :: ys else y :: insertSorted x ys

/-- Sort a list of rationals in increasing order (insertion sort). -/
def sortQ (l : List ℚ) : List ℚ :=
  l.foldr insertSorted []

/-- Median of a list of rationals (the middle element of the sorted list;
0 for the empty list). -/
def median (l : List ℚ) : ℚ :=
  (sortQ l).getD (l.length / 2) 0

/-- Insert a candidate into a list sorted by a rational key. -/
def insertByKey (key : List Value → ℚ) (x : List Value) :
    List (List Value) → List (List Value)
  | [] => [x]
  | y :: ys => if key x ≤ key y then x :: y :: ys else y :: insertByKey key x ys

/-- Sort candidates by a rational key in increasing order (insertion sort). -/
def sortByKey (key : List Value → ℚ) (l : List (List Value)) :
    List (List Value) :=
  l.foldr (insertByKey key) []

/-- L1 distance between two points, coordinates read numerically. -/
def dist1 (p q : List Value) : ℚ :=
  ((p.zip q).map (fun ab => |vnum ab.1 - vnum ab.2|)).sum

/-- L1 distance between two points restricted to the coordinates that are not
among the missing indices. -/
def presentDist (p s : List Value) (missing : List ℕ) : ℚ :=
  (((List.range p.length).filter (fun i => ! missing.contains i)).map
    (fun i => |vnum (p.getD i Value.nan) - vnum (s.getD i Value.nan)|)).sum

/-- Modelled from the spec: a single random cut tree of the Java engine
(section 4.2), reduced to the data the modelled operations consume — the
sample of points it currently holds.  The tree-shape details (cuts, bounding
boxes) are not needed by any claim under study. -/
structure RandomCutTree where
  sample : List (List Value)
deriving DecidableEq, Repr

/-- Modelled from the spec: the per-tree anomaly score of section 4.2, a
depth/mass-weighted displacement statistic.  Section 9 of the spec leaves the
concrete statistic open, asking only for the qualitative behaviour; the model
uses the total L1 displacement of the candidate from the sample, damped by the
sample mass, which is non-negative and zero on an empty tree. -/
def RandomCutTree.treeScore (t : RandomCutTree) (p : List Value) : ℚ :=
  ((t.sample.map (fun s => dist1 p s)).sum) / ((t.sample.length : ℚ) + 1)

/-- Modelled from the spec: the sample point of the tree closest to the query
on the coordinates that are not missing (section 4.2 imputation: the value
that least perturbs the tree). -/
def RandomCutTree.closestSample (t : RandomCutTree) (p : List Value)
    (missing : List ℕ) : Option (List Value) :=
  t.sample.foldl
    (fun best s =>
      match best with
      | none => some s
      | some b =>
          if presentDist p s missing < presentDist p b missing then some s
          else best)
    none

/-- Modelled from the spec: the value a single tree imputes for one missing
coordinate (section 4.2): the corresponding coordinate of the closest sample
point; 0 when the tree is empty. -/
def RandomCutTree.imputeCoordinate (t : RandomCutTree) (p : List Value)
    (i : ℕ) : ℚ :=
  match t.closestSample p [i] with
  | none => 0
  | some s => vnum (s.getD i Value.nan)

/-- Modelled from the spec: the full candidate completion a single tree
proposes for a point with several missing coordinates (section 4.2): the
missing coordinates are filled from the closest sample point, or with 0 when
the tree is empty. -/
def RandomCutTree.imputeCandidate (t : RandomCutTree) (p : List Value)
    (missing : List ℕ) : List Value :=
  match t.closestSample p missing with
  | none => missing.foldl (fun acc i => acc.set i (Value.num 0)) p
  | some s => missing.foldl (fun acc i => acc.set i (s.getD i Value.nan)) p

/-- Modelled from the spec: the state of the Java `RandomCutForest` object as
configured by the builder chain of `RandomCutForestModel.__init__`
(`rcf_model.py`, lines 23-37) together with the run-time state the modelled
operations need: the number of updates applied so far and the trees. -/
structure RandomCutForest where
  numberOfTrees : ℕ
  sampleSize : ℕ
  dimensions : ℕ
  storeSequenceIndexesEnabled : Bool
  centerOfMassEnabled : Bool
  parallelExecutionEnabled : Bool
  timeDecay : ℚ
  outputAfter : ℕ
  threadPoolSize : Option ℕ
  randomSeed : Option ℤ
  updateCount : ℕ
  trees : List RandomCutTree
deriving DecidableEq, Repr

/-- Modelled from the spec: the ensemble anomaly score before the cold-start
gate (section 4.3): the mean over the trees of the per-tree score. -/
def RandomCutForest.scoreRaw (f : RandomCutForest) (p : List Value) : ℚ :=
  ((f.trees.map (fun t => t.treeScore p)).sum) / (f.trees.length : ℚ)

/-- Modelled from the spec: the value returned by a successful
`getAnomalyScore` call — 0 before `outputAfter` updates have been applied
(cold-start policy of sections 4.3 and 8), the mean per-tree score after. -/
def RandomCutForest.scoreValue (f : RandomCutForest) (p : List Value) : ℚ :=
  if f.updateCount < f.outputAfter then 0 else f.scoreRaw p

/-- Modelled from the spec: `RandomCutForest.getAnomalyScore` of the Java
engine.  Dimension mismatches are rejected at the call boundary (sections 6
and 7); otherwise the gated ensemble score is returned. -/
def RandomCutForest.getAnomalyScore (f : RandomCutForest) (point : List Value) :
    Except RCFError ℚ :=
  if point.length ≠ f.dimensions then Except.error RCFError.dimensionMismatch
  else Except.ok (f.scoreValue point)

/-- Modelled from the spec: `RandomCutForest.update` of the Java engine.
Dimension mismatches are rejected before any mutation (sections 6 and 7);
otherwise the point is inserted into every tree sample, bounded by the sample
size, and the update counter advances.  The weighted random eviction of
section 4.1 is modelled by keeping the most recent `sampleSize` points. -/
def RandomCutForest.update (f : RandomCutForest) (point : List Value) :
    Except RCFError Unit × RandomCutForest :=
  if point.length ≠ f.dimensions then
    (Except.error RCFError.dimensionMismatch, f)
  else
    (Except.ok (),
      { f with
        updateCount := f.updateCount + 1
        trees := f.trees.map (fun t => ⟨(point :: t.sample).take f.sampleSize⟩) })

/-- Modelled from the spec: the completion returned for a point with exactly
one missing dimension (section 4.3): the missing coordinate is replaced by the
median over the trees of the per-tree imputed value. -/
def RandomCutForest.singleMissingImpute (f : RandomCutForest) (p : List Value)
    (i : ℕ) : List Value :=
  p.set i (Value.num (median (f.trees.map (fun t => t.imputeCoordinate p i))))

/-- Modelled from the spec: the completion returned for a point with more than
one missing dimension (section 4.3): among the per-tree candidate completions,
the one at the 25th percentile of induced anomaly score — the candidate at
position `count / 4` of the candidates sorted by increasing raw score. -/
def RandomCutForest.multiMissingImpute (f : RandomCutForest) (p : List Value)
    (missing : List ℕ) : List Value :=
  let cands := f.trees.map (fun t => t.imputeCandidate p missing)
  (sortByKey (fun c => f.scoreRaw c) cands).getD (cands.length / 4) p

/-- Modelled from the spec: `RandomCutForest.imputeMissingValues` of the Java
engine, which is not among the given sources.  Section 7: a numeric error
during imputation — the all-NaN point — fails closed, returning the original
point unchanged.  Section 4.3: otherwise one missing dimension is filled with
the per-tree median imputed value and several missing dimensions with the
candidate at the 25th percentile of induced anomaly score.  The imputation
contract of sections 4.2-4.3 states no dimension check, and the wrapper
`impute` path demonstrably bypasses rejection for complete points, so none is
modelled here. -/
def RandomCutForest.imputeMissingValues (f : RandomCutForest)
    (point : List Value) (numberOfMissingValues : ℕ)
    (missingIndexes : List ℕ) : List Value :=
  if point.all Value.isnan then point
  else if numberOfMissingValues = 1 then
    f.singleMissingImpute point (missingIndexes.headD 0)
  else
    f.multiMissingImpute point missingIndexes

/-- Modelled from the spec: one horizon-step block of
`RandomCutForest.extrapolateBasic` (section 4.3 forecast): shift the shingle
by the block size, append placeholder missing values, impute them, emit the
imputed values, and iterate on the imputed shingle. -/
def RandomCutForest.extrapolateLoop (f : RandomCutForest) (blockSize : ℕ) :
    ℕ → List Value → List Value
  | 0, _ => []
  | n + 1, p =>
      let shifted := p.drop blockSize ++ List.replicate blockSize Value.nan
      let missing :=
        (List.range blockSize).map (fun j => shifted.length - blockSize + j)
      let imput := f.imputeMissingValues shifted blockSize missing
      missing.map (fun i => imput.getD i Value.nan)
        ++ f.extrapolateLoop blockSize n imput

/-- Modelled from the spec: `RandomCutForest.extrapolateBasic` of the Java
engine (section 4.3): repeated single-step imputation for the given horizon.
Dimension mismatches are rejected at the call boundary (section 6).  The
cyclic and shift-base controls of the Java signature are carried but the
spec describes only the plain repeated imputation, so they do not alter the
modelled iteration. -/
def RandomCutForest.extrapolateBasic (f : RandomCutForest) (point : List Value)
    (horizon blockSize : ℕ) (cyclic : Bool) (shiftBase : ℕ) :
    Except RCFError (List Value) :=
  if point.length ≠ f.dimensions then Except.error RCFError.dimensionMismatch
  else Except.ok (f.extrapolateLoop blockSize horizon point)

/-- The Python class `RandomCutForestModel` of `rcf_model.py`: it holds the
underlying forest in its `forest` attribute. -/
structure RandomCutForestModel where
  forest : RandomCutForest
deriving DecidableEq, Repr

/-- `RandomCutForestModel.__init__` (`rcf_model.py`, lines 15-37): when a
pre-built forest is given it is stored directly; otherwise the builder chain
constructs a forest with `dimensions := shingle_size`, sequence indexes and
center of mass enabled, the given tree count, sample size, parallelism flag,
optional thread pool size, time decay `lam`, output-after count, and optional
random seed.  A freshly built forest has seen no updates and its trees are
empty. -/
def RandomCutForestModel.init (forest : Option RandomCutForest)
    (shingle_size num_trees : ℕ) (random_seed : Option ℤ) (sample_size : ℕ)
    (parallel_execution_enabled : Bool) (thread_pool_size : Option ℕ)
    (lam : ℚ) (output_after : ℕ) : RandomCutForestModel :=
  { forest := forest.getD
      { numberOfTrees := num_trees
        sampleSize := sample_size
        dimensions := shingle_size
        storeSequenceIndexesEnabled := true
        centerOfMassEnabled := true
        parallelExecutionEnabled := parallel_execution_enabled
        timeDecay := lam
        outputAfter := output_after
        threadPoolSize := thread_pool_size
        randomSeed := random_seed
        updateCount := 0
        trees := List.replicate num_trees ⟨[]⟩ } }

/-- `RandomCutForestModel` constructed with every optional parameter left at
its Python default: `forest=None`, `num_trees=100`, `random_seed=None`,
`sample_size=256`, `parallel_execution_enabled=True`,
`thread_pool_size=None`, `lam=0.0001`, `output_after=256`. -/
def RandomCutForestModel.initDefaults (shingle_size : ℕ) :
    RandomCutForestModel :=
  RandomCutForestModel.init none shingle_size 100 none 256 true none
    (1 / 10000) 256

/-- `RandomCutForestModel.score` (`rcf_model.py`, lines 39-54): forwards to
`forest.getAnomalyScore`. -/
def RandomCutForestModel.score (m : RandomCutForestModel)
    (point : List Value) : Except RCFError ℚ :=
  m.forest.getAnomalyScore point

/-- `RandomCutForestModel.update` (`rcf_model.py`, lines 56-65): forwards to
`forest.update`; the pair carries the call outcome and the model afterwards. -/
def RandomCutForestModel.update (m : RandomCutForestModel)
    (point : List Value) : Except RCFError Unit × RandomCutForestModel :=
  ((m.forest.update point).1, ⟨(m.forest.update point).2⟩)

/-- `RandomCutForestModel.impute` (`rcf_model.py`, lines 68-90): counts the
NaN coordinates; a point with none is returned unchanged, otherwise
`forest.imputeMissingValues` is called with the NaN count and the list of NaN
positions. -/
def RandomCutForestModel.impute (m : RandomCutForestModel)
    (point : List Value) : List Value :=
  let num_missing := countNaN point
  if num_missing = 0 then point
  else m.forest.imputeMissingValues point num_missing (nanIndices point)

/-- `RandomCutForestModel.forecast` (`rcf_model.py`, lines 92-108): calls
`forest.extrapolateBasic(point, 1, 1, False, 0)` and returns element 0 of the
resulting list. -/
def RandomCutForestModel.forecast (m : RandomCutForestModel)
    (point : List Value) : Except RCFError Value :=
  match m.forest.extrapolateBasic point 1 1 false 0 with
  | Except.error e => Except.error e
  | Except.ok l => Except.ok (l.getD 0 Value.nan)

/-- The `shingle_size` property (`rcf_model.py`, lines 110-118): reads back
`forest.getDimensions()`. -/
def RandomCutForestModel.shingle_size (m : RandomCutForestModel) : ℕ :=
  m.forest.dimensions

/-- Fold a history of `update` calls over a model, keeping the state each call
leaves behind (rejected calls leave the state unchanged). -/
def applyHistory (m : RandomCutForestModel) (history : List (List Value)) :
    RandomCutForestModel :=
  history.foldl (fun acc p => (acc.update p).2) m

/-- `com.amazon.randomcutforest.config.Precision` as used by the builder
chain of `trcf_model.py`. -/
inductive Precision
  | FLOAT_32
  | FLOAT_64
deriving DecidableEq, Repr

/-- `com.amazon.randomcutforest.config.TransformMethod`: the closed set of
normalization variants of section 9 of the spec; the builder chain of
`trcf_model.py` selects `NORMALIZE`. -/
inductive TransformMethod
  | NONE
  | DIFFERENCE
  | NORMALIZE
deriving DecidableEq, Repr

/-- The configuration assembled by the `ThresholdedRandomCutForest` builder
chain of `TRandomCutForestModel.__init__` (`trcf_model.py`, lines 18-39),
fields in the order the chain sets them, with the z-factor applied afterwards
through `setZfactor`. -/
structure TRCFBuilderConfig where
  dimensions : ℕ
  sampleSize : ℕ
  numberOfTrees : ℕ
  timeDecay : ℚ
  initialAcceptFraction : ℚ
  parallelExecutionEnabled : Bool
  compact : Bool
  precision : Precision
  boundingBoxCacheFraction : ℚ
  shingleSize : ℕ
  anomalyRate : ℚ
  outputAfter : ℕ
  internalShinglingEnabled : Bool
  transformMethod : TransformMethod
  alertOnce : Bool
  autoAdjust : Bool
  zFactor : ℚ
deriving DecidableEq, Repr

/-- `TRandomCutForestModel.__init__` (`trcf_model.py`, lines 18-39), with the
parameters in the Python order.  The builder chain sets exactly the
configuration fields below; the `score_differencing` and
`ignore_delta_threshold` parameters are accepted but appear nowhere in the
chain, exactly as in the source. -/
def TRandomCutForestModel.init (rcf_dimensions shingle_size num_trees
    output_after : ℕ) (anomaly_rate z_factor score_differencing
    ignore_delta_threshold : ℚ) (sample_size : ℕ) : TRCFBuilderConfig :=
  { dimensions := rcf_dimensions
    sampleSize := sample_size
    numberOfTrees := num_trees
    timeDecay := 1 / 10000
    initialAcceptFraction := (output_after : ℚ) / (sample_size : ℚ)
    parallelExecutionEnabled := true
    compact := true
    precision := Precision.FLOAT_32
    boundingBoxCacheFraction := 1
    shingleSize := shingle_size
    anomalyRate := anomaly_rate
    outputAfter := output_after
    internalShinglingEnabled := true
    transformMethod := TransformMethod.NORMALIZE
    alertOnce := true
    autoAdjust := true
    zFactor := z_factor }

/-- `TRandomCutForestModel` constructed with every optional parameter left at
its Python default: `num_trees=30`, `output_after=256`, `anomaly_rate=0.005`,
`z_factor=2.5`, `score_differencing=0.5`, `ignore_delta_threshold=0`,
`sample_size=256`. -/
def TRandomCutForestModel.initDefaults (rcf_dimensions shingle_size : ℕ) :
    TRCFBuilderConfig :=
  TRandomCutForestModel.init rcf_dimensions shingle_size 30 256 (1 / 200)
    (5 / 2) (1 / 2) 0 256

/-- The result of processing one point: `AnomalyDescriptor` of section 3 of
the spec — raw score, grade, current threshold, attribution vectors and
expected value. -/
structure AnomalyDescriptor where
  score : ℚ
  grade : ℚ
  threshold : ℚ
  low : List ℚ
  high : List ℚ
  expectedValue : List ℚ
deriving DecidableEq, Repr

/-- Modelled from the spec: the Java `ThresholdedRandomCutForest` object,
which is not among the given sources.  It carries its builder configuration,
the expected input dimensionality (with internal shingling the caller passes
base-dimension points, `dimensions / shingleSize`), its internal calibration
state, and the descriptor computation.  The spec fixes the rejection
behaviour at the call boundary (sections 6 and 7) but not the numeric content
of the descriptor, so the post-check computation is carried as an arbitrary
function of the internal state, the point, and the timestamp. -/
structure ThresholdedRandomCutForest (σ : Type) where
  config : TRCFBuilderConfig
  inputDimensions : ℕ
  state : σ
  descriptorImpl : σ → List Value → ℤ → AnomalyDescriptor × σ

/-- Modelled from the spec: `ThresholdedRandomCutForest.process` of the Java
engine (section 4.4 contract `process(point, timestamp)`).  A dimension
mismatch is rejected at the call boundary, before any mutation of the
calibration state (sections 6 and 7); otherwise the descriptor is computed
from the point and the timestamp and the internal state advances. -/
def ThresholdedRandomCutForest.process {σ : Type}
    (f : ThresholdedRandomCutForest σ) (point : List Value) (timestamp : ℤ) :
    Except RCFError AnomalyDescriptor × ThresholdedRandomCutForest σ :=
  if point.length ≠ f.inputDimensions then
    (Except.error RCFError.dimensionMismatch, f)
  else
    let r := f.descriptorImpl f.state point timestamp
    (Except.ok r.1, { f with state := r.2 })

/-- The Python class `TRandomCutForestModel` of `trcf_model.py`: it holds the
underlying thresholded forest in its `forest` attribute. -/
structure TRandomCutForestModel (σ : Type) where
  forest : ThresholdedRandomCutForest σ

/-- `TRandomCutForestModel.process` (`trcf_model.py`, lines 41-56): the
method takes only the point and forwards `self.forest.process(point, 0)`,
with the timestamp argument hard-coded to 0; the pair carries the call
outcome and the model afterwards. -/
def TRandomCutForestModel.process {σ : Type} (m : TRandomCutForestModel σ)
    (point : List Value) :
    Except RCFError AnomalyDescriptor × TRandomCutForestModel σ :=
  ((m.forest.process point 0).1, ⟨(m.forest.process point 0).2⟩)

/-- A `TRandomCutForestModel` whose underlying forest was built with the
given constructor arguments: the configuration comes from
`TRandomCutForestModel.init`, the expected input dimensionality is
`rcf_dimensions / shingle_size`, and the calibration state and descriptor
computation are the given ones. -/
def TRandomCutForestModel.initModel (σ : Type) (rcf_dimensions shingle_size
    num_trees output_after : ℕ) (anomaly_rate z_factor score_differencing
    ignore_delta_threshold : ℚ) (sample_size : ℕ) (s0 : σ)
    (impl : σ → List Value → ℤ → AnomalyDescriptor × σ) :
    TRandomCutForestModel σ :=
  { forest :=
      { config := TRandomCutForestModel.init rcf_dimensions shingle_size
          num_trees output_after anomaly_rate z_factor score_differencing
          ignore_delta_threshold sample_size
        inputDimensions := rcf_dimensions / shingle_size
        state := s0
        descriptorImpl := impl } }

/-! Concrete fixtures used by counterexamples and witnesses. -/

/-- A one-dimensional forest model holding a single tree whose sample is the
single point `[5]`. -/
def M1 : RandomCutForestModel :=
  { forest :=
      { numberOfTrees := 1
        sampleSize := 256
        dimensions := 1
        storeSequenceIndexesEnabled := true
        centerOfMassEnabled := true
        parallelExecutionEnabled := true
        timeDecay := 1 / 10000
        outputAfter := 256
        threadPoolSize := none
        randomSeed := none
        updateCount := 0
        trees := [⟨[[Value.num 5]]⟩] } }

/-- A two-dimensional forest model holding a single tree whose sample is the
single point `[3, 4]`. -/
def W1 : RandomCutForestModel :=
  { forest :=
      { numberOfTrees := 1
        sampleSize := 256
        dimensions := 2
        storeSequenceIndexesEnabled := true
        centerOfMassEnabled := true
        parallelExecutionEnabled := true
        timeDecay := 1 / 10000
        outputAfter := 256
        threadPoolSize := none
        randomSeed := none
        updateCount := 0
        trees := [⟨[[Value.num 3, Value.num 4]]⟩] } }

/-- A thresholded forest model over trivial state whose descriptor records
the timestamp it is computed from in its score field. -/
def TM3 : TRandomCutForestModel Unit :=
  { forest :=
      { config := TRandomCutForestModel.initDefaults 4 2
        inputDimensions := 0
        state := ()
        descriptorImpl := fun _ _ ts =>
          ({ score := (ts : ℚ), grade := 0, threshold := 0, low := [],
             high := [], expectedValue := [] }, ()) } }

/-- A thresholded forest model built by `initModel` with default optional
arguments, base input dimensionality `4 / 2 = 2`, trivial state and a
constant descriptor. -/
def TM4 : TRandomCutForestModel Unit :=
  TRandomCutForestModel.initModel Unit 4 2 30 256 (1 / 200) (5 / 2) (1 / 2) 0
    256 ()
    (fun s _ _ =>
      ({ score := 0, grade := 0, threshold := 0, low := [], high := [],
         expectedValue := [] }, s))

instance {ε α : Type} [DecidableEq ε] [DecidableEq α] :
    DecidableEq (Except ε α) := fun x y =>
  match x, y with
  | Except.ok a, Except.ok b =>
      if h : a = b then Decidable.isTrue (by rw [h])
      else Decidable.isFalse (fun hh => h (Except.ok.inj hh))
  | Except.ok _, Except.error _ =>
      Decidable.isFalse (fun hh => Except.noConfusion hh)
  | Except.error _, Except.ok _ =>
      Decidable.isFalse (fun hh => Except.noConfusion hh)
  | Except.error a, Except.error b =>
      if h : a = b then Decidable.isTrue (by rw [h])
      else Decidable.isFalse (fun hh => h (Except.error.inj hh))

/-- The score field of a process outcome; 0 on a rejected call. -/
def descScore : Except RCFError AnomalyDescriptor → ℚ
  | Except.ok d => d.score
  | Except.error _ => 0

/-! Helper lemmas. -/

/-- The NaN indices of a point are exactly the in-range positions whose
coordinate is NaN. -/
lemma mem_nanIndices (p : List Value) (i : ℕ) :
    i ∈ nanIndices p ↔ i < p.length ∧ (p.getD i Value.nan).isnan = true := by
  simp [nanIndices, List.mem_filter, List.mem_range]

lemma dist1_nonneg (p q : List Value) : 0 ≤ dist1 p q := by
  refine List.sum_nonneg ?_
  intro x hx
  obtain ⟨ab, _, rfl⟩ := List.mem_map.mp hx
  exact abs_nonneg _

lemma treeScore_nonneg (t : RandomCutTree) (p : List Value) :
    0 ≤ t.treeScore p := by
  refine div_nonneg (List.sum_nonneg ?_) (by positivity)
  intro x hx
  obtain ⟨s, _, rfl⟩ := List.mem_map.mp hx
  exact dist1_nonneg p s

lemma scoreRaw_nonneg (f : RandomCutForest) (p : List Value) :
    0 ≤ f.scoreRaw p := by
  refine div_nonneg (List.sum_nonneg ?_) (Nat.cast_nonneg _)
  intro x hx
  obtain ⟨t, _, rfl⟩ := List.mem_map.mp hx
  exact treeScore_nonneg t p

lemma scoreValue_nonneg (f : RandomCutForest) (p : List Value) :
    0 ≤ f.scoreValue p := by
  unfold RandomCutForest.scoreValue
  split
  · exact le_refl 0
  · exact scoreRaw_nonneg f p

lemma update_preserves_dimensions (m : RandomCutForestModel)
    (p : List Value) :
    ((m.update p).2).forest.dimensions = m.forest.dimensions := by
  simp only [RandomCutForestModel.update, RandomCutForest.update]
  split <;> rfl

lemma update_preserves_outputAfter (m : RandomCutForestModel)
    (p : List Value) :
    ((m.update p).2).forest.outputAfter = m.forest.outputAfter := by
  simp only [RandomCutForestModel.update, RandomCutForest.update]
  split <;> rfl

lemma applyHistory_dimensions (history : List (List Value)) :
    ∀ m : RandomCutForestModel,
      (applyHistory m history).forest.dimensions = m.forest.dimensions := by
  induction history with
  | nil => intro m; rfl
  | cons p t ih =>
      intro m
      have h1 : applyHistory m (p :: t) = applyHistory ((m.update p).2) t := rfl
      rw [h1, ih, update_preserves_dimensions]

lemma applyHistory_outputAfter (history : List (List Value)) :
    ∀ m : RandomCutForestModel,
      (applyHistory m history).forest.outputAfter = m.forest.outputAfter := by
  induction history with
  | nil => intro m; rfl
  | cons p t ih =>
      intro m
      have h1 : applyHistory m (p :: t) = applyHistory ((m.update p).2) t := rfl
      rw [h1, ih, update_preserves_outputAfter]

/-! Claim theorems. -/

/-- Claim C1 (counterexample): the claim states that every point with at
least one NaN coordinate and exactly one missing dimension receives the
per-tree median imputed value.  On the all-NaN one-dimensional point `[NaN]`
over the forest `M1` the imputation fails closed and returns `[NaN]`, while
the median completion is `[5]`, so the claim as stated is false. -/
theorem impute_allNaN_not_median_completion :
    RandomCutForestModel.impute M1 [Value.nan] = [Value.nan] ∧
    countNaN [Value.nan] = 1 ∧
    nanIndices [Value.nan] = [0] ∧
    M1.forest.singleMissingImpute [Value.nan]
      ((nanIndices [Value.nan]).headD 0) = [Value.num 5] ∧
    RandomCutForestModel.impute M1 [Value.nan] ≠
      M1.forest.singleMissingImpute [Value.nan]
        ((nanIndices [Value.nan]).headD 0) := by
  decide

/-- Claim C1 (amended): for every point that contains at least one NaN
coordinate but is not entirely NaN, `impute` passes exactly the NaN count and
the NaN positions to the imputation, and returns the per-tree median imputed
value when exactly one coordinate is NaN and the 25th-percentile candidate by
induced anomaly score when more than one coordinate is NaN; a point that is
entirely NaN is instead returned unchanged (the fail-closed policy). -/
theorem impute_missing_dims_dispatch (m : RandomCutForestModel)
    (p : List Value) (h1 : countNaN p ≠ 0) (h2 : p.all Value.isnan = false) :
    RandomCutForestModel.impute m p =
      m.forest.imputeMissingValues p (countNaN p) (nanIndices p) ∧
    (countNaN p = 1 →
      RandomCutForestModel.impute m p =
        m.forest.singleMissingImpute p ((nanIndices p).headD 0)) ∧
    (1 < countNaN p →
      RandomCutForestModel.impute m p =
        m.forest.multiMissingImpute p (nanIndices p)) := by
  have himp : RandomCutForestModel.impute m p =
      m.forest.imputeMissingValues p (countNaN p) (nanIndices p) := by
    simp [RandomCutForestModel.impute, h1]
  refine ⟨himp, ?_, ?_⟩
  · intro hc1
    rw [himp]
    simp [RandomCutForest.imputeMissingValues, h2, hc1]
  · intro hlt
    have hne : countNaN p ≠ 1 := by omega
    rw [himp]
    simp [RandomCutForest.imputeMissingValues, h2, hne]

/-- Claim C1 (witness): the amended dispatch at the point `[NaN, 1]` over the
forest `W1`. -/
theorem impute_missing_dims_dispatch_witness :
    countNaN [Value.nan, Value.num 1] ≠ 0 ∧
    ([Value.nan, Value.num 1].all Value.isnan = false) ∧
    (RandomCutForestModel.impute W1 [Value.nan, Value.num 1] =
      W1.forest.imputeMissingValues [Value.nan, Value.num 1]
        (countNaN [Value.nan, Value.num 1])
        (nanIndices [Value.nan, Value.num 1]) ∧
    (countNaN [Value.nan, Value.num 1] = 1 →
      RandomCutForestModel.impute W1 [Value.nan, Value.num 1] =
        W1.forest.singleMissingImpute [Value.nan, Value.num 1]
          ((nanIndices [Value.nan, Value.num 1]).headD 0)) ∧
    (1 < countNaN [Value.nan, Value.num 1] →
      RandomCutForestModel.impute W1 [Value.nan, Value.num 1] =
        W1.forest.multiMissingImpute [Value.nan, Value.num 1]
          (nanIndices [Value.nan, Value.num 1]))) :=
  ⟨by decide, by decide,
    impute_missing_dims_dispatch W1 [Value.nan, Value.num 1] (by decide)
      (by decide)⟩

/-- Claim C2: a point whose coordinates are all NaN is returned unchanged by
`impute` (the imputation fails closed rather than raising or producing a
different result). -/
theorem impute_all_nan_fails_closed (m : RandomCutForestModel)
    (p : List Value) (h : p.all Value.isnan = true) :
    RandomCutForestModel.impute m p = p := by
  by_cases h0 : countNaN p = 0
  · simp [RandomCutForestModel.impute, h0]
  · simp [RandomCutForestModel.impute, h0,
      RandomCutForest.imputeMissingValues, h]

/-- Claim C2 (witness): the all-NaN point `[NaN, NaN]` over the forest `W1`
comes back unchanged. -/
theorem impute_all_nan_fails_closed_witness :
    ([Value.nan, Value.nan].all Value.isnan = true) ∧
    RandomCutForestModel.impute W1 [Value.nan, Value.nan]
      = [Value.nan, Value.nan] :=
  ⟨by decide, impute_all_nan_fails_closed W1 [Value.nan, Value.nan] (by decide)⟩

/-- Claim C3 (counterexample): the claim states that `process` takes a
caller-supplied timestamp and computes the descriptor from it.  Over the
model `TM3`, whose descriptor records the timestamp it was computed from in
its score field, the wrapper returns the descriptor computed at timestamp 0,
not the one computed at the caller timestamp 1 — the Python method has no
timestamp parameter and hard-codes 0. -/
theorem process_timestamp_hardcoded :
    descScore (TRandomCutForestModel.process TM3 []).1 = 0 ∧
    descScore (TM3.forest.process [] 1).1 = 1 ∧
    descScore (TRandomCutForestModel.process TM3 []).1 ≠
      descScore (TM3.forest.process [] 1).1 := by
  decide

/-- Claim C3 (amended): `TRandomCutForestModel.process` takes only a point
and invokes the underlying forest with the fixed timestamp 0, so the
descriptor it returns is the one computed from the point and timestamp 0. -/
theorem process_uses_timestamp_zero (σ : Type) (m : TRandomCutForestModel σ)
    (p : List Value) :
    (TRandomCutForestModel.process m p).1 = (m.forest.process p 0).1 ∧
    (TRandomCutForestModel.process m p).2.forest = (m.forest.process p 0).2 :=
  ⟨rfl, rfl⟩

/-- Claim C4 (counterexample): the claim states that `impute` rejects a point
whose length differs from the configured dimensionality before any mutation.
The point `[7]` has no NaN coordinate and length 1 while `W1` is configured
with 2 dimensions, yet `impute` returns it unchanged instead of rejecting
it — the wrapper short-circuits complete points before any engine call. -/
theorem impute_mismatched_complete_point_not_rejected :
    countNaN [Value.num 7] = 0 ∧
    [Value.num 7].length ≠ W1.forest.dimensions ∧
    RandomCutForestModel.impute W1 [Value.num 7] = [Value.num 7] := by
  decide

/-- Claim C4 (amended): a point whose length differs from the configured
dimensionality is rejected by `update`, `score` and `forecast` on the plain
forest and by `process` on the thresholded forest before any mutation — the
model state after the failed call equals the state before it.  `impute` does
not reject such a point: a mismatched point without NaN coordinates is
returned unchanged (and `impute` never mutates the model state). -/
theorem dimension_mismatch_rejected_before_mutation
    (m : RandomCutForestModel) (p : List Value)
    (hp : p.length ≠ m.forest.dimensions) (σ : Type)
    (tm : TRandomCutForestModel σ) (q : List Value)
    (hq : q.length ≠ tm.forest.inputDimensions) :
    (m.update p).1 = Except.error RCFError.dimensionMismatch ∧
    (m.update p).2 = m ∧
    m.score p = Except.error RCFError.dimensionMismatch ∧
    m.forecast p = Except.error RCFError.dimensionMismatch ∧
    (countNaN p = 0 → RandomCutForestModel.impute m p = p) ∧
    (TRandomCutForestModel.process tm q).1 =
      Except.error RCFError.dimensionMismatch ∧
    (TRandomCutForestModel.process tm q).2 = tm := by
  refine ⟨?_, ?_, ?_, ?_, ?_, ?_, ?_⟩
  · simp [RandomCutForestModel.update, RandomCutForest.update, hp]
  · simp [RandomCutForestModel.update, RandomCutForest.update, hp]
  · simp [RandomCutForestModel.score, RandomCutForest.getAnomalyScore, hp]
  · simp [RandomCutForestModel.forecast, RandomCutForest.extrapolateBasic, hp]
  · intro h0
    simp [RandomCutForestModel.impute, h0]
  · simp [TRandomCutForestModel.process, ThresholdedRandomCutForest.process,
      hq]
  · simp [TRandomCutForestModel.process, ThresholdedRandomCutForest.process,
      hq]

/-- Claim C4 (witness): the mismatched complete point `[7]` against the
2-dimensional forest `W1` and the mismatched point `[0]` against the
thresholded model `TM4`, whose configured input dimensionality is
`4 / 2 = 2`. -/
theorem dimension_mismatch_rejected_before_mutation_witness :
    ([Value.num 7].length ≠ W1.forest.dimensions) ∧
    ([Value.num 0].length ≠ TM4.forest.inputDimensions) ∧
    ((W1.update [Value.num 7]).1 =
        Except.error RCFError.dimensionMismatch ∧
      (W1.update [Value.num 7]).2 = W1 ∧
      W1.score [Value.num 7] = Except.error RCFError.dimensionMismatch ∧
      W1.forecast [Value.num 7] = Except.error RCFError.dimensionMismatch ∧
      (countNaN [Value.num 7] = 0 →
        RandomCutForestModel.impute W1 [Value.num 7] = [Value.num 7]) ∧
      (TRandomCutForestModel.process TM4 [Value.num 0]).1 =
        Except.error RCFError.dimensionMismatch ∧
      (TRandomCutForestModel.process TM4 [Value.num 0]).2 = TM4) :=
  ⟨by decide, by decide,
    dimension_mismatch_rejected_before_mutation W1 [Value.num 7] (by decide)
      Unit TM4 [Value.num 0] (by decide)⟩

/-- Claim C5: `impute` on a point with no NaN coordinate returns the point
unchanged. -/
theorem impute_complete_point_identity (m : RandomCutForestModel)
    (p : List Value) (h : countNaN p = 0) :
    RandomCutForestModel.impute m p = p := by
  simp [RandomCutForestModel.impute, h]

/-- Claim C5 (witness): the complete point `[3]` over the forest `M1` comes
back unchanged. -/
theorem impute_complete_point_identity_witness :
    countNaN [Value.num 3] = 0 ∧
    RandomCutForestModel.impute M1 [Value.num 3] = [Value.num 3] :=
  ⟨by decide, impute_complete_point_identity M1 [Value.num 3] (by decide)⟩

/-- Claim C6: after any history of `update` calls on a freshly constructed
forest, `score` on a point of the configured length succeeds with a
non-negative value, and that value is exactly 0 whenever fewer than
`output_after` updates have been applied to the forest. -/
theorem score_nonneg_and_cold_start_zero (s nt : ℕ) (rs : Option ℤ)
    (ss : ℕ) (pe : Bool) (tps : Option ℕ) (lam : ℚ) (oa : ℕ)
    (history : List (List Value)) (p : List Value)
    (m : RandomCutForestModel)
    (hm : m = applyHistory
      (RandomCutForestModel.init none s nt rs ss pe tps lam oa) history)
    (hp : p.length = s) :
    m.score p = Except.ok (m.forest.scoreValue p) ∧
    0 ≤ m.forest.scoreValue p ∧
    (m.forest.updateCount < oa → m.forest.scoreValue p = 0) := by
  subst hm
  have hdim : (applyHistory
      (RandomCutForestModel.init none s nt rs ss pe tps lam oa)
      history).forest.dimensions = s := by
    rw [applyHistory_dimensions]
    rfl
  have hoa : (applyHistory
      (RandomCutForestModel.init none s nt rs ss pe tps lam oa)
      history).forest.outputAfter = oa := by
    rw [applyHistory_outputAfter]
    rfl
  refine ⟨?_, scoreValue_nonneg _ p, ?_⟩
  · simp [RandomCutForestModel.score, RandomCutForest.getAnomalyScore, hdim,
      hp]
  · intro hcount
    unfold RandomCutForest.scoreValue
    rw [if_pos]
    rw [hoa]
    exact hcount

/-- Claim C6 (witness): the fresh default forest with shingle size 1 (256
updates required before output, none applied) scores the point `[0]` as
exactly 0. -/
theorem score_nonneg_and_cold_start_zero_witness :
    ([Value.num 0].length = 1) ∧
    ((applyHistory (RandomCutForestModel.initDefaults 1) []).score
        [Value.num 0] =
      Except.ok ((applyHistory
        (RandomCutForestModel.initDefaults 1) []).forest.scoreValue
          [Value.num 0]) ∧
    0 ≤ (applyHistory
        (RandomCutForestModel.initDefaults 1) []).forest.scoreValue
          [Value.num 0] ∧
    ((applyHistory (RandomCutForestModel.initDefaults 1)
        []).forest.updateCount < 256 →
      (applyHistory (RandomCutForestModel.initDefaults 1)
        []).forest.scoreValue [Value.num 0] = 0)) :=
  ⟨by decide,
    score_nonneg_and_cold_start_zero 1 100 none 256 true none (1 / 10000) 256
      [] [Value.num 0] (applyHistory (RandomCutForestModel.initDefaults 1) [])
      rfl (by decide)⟩

/-- Claim C7 (counterexample): the claim states that construction takes
`dimensions` and `shingleSize` as separate parameters.  Were that so, some
construction would configure the underlying forest with a dimensionality
different from its shingle-size argument; in the code no construction can —
`__init__` exposes only `shingle_size` and sets the dimensionality of the
forest to it directly. -/
theorem construct_no_separate_dimensions :
    ¬ ∃ (s nt : ℕ) (rs : Option ℤ) (ss : ℕ) (pe : Bool) (tps : Option ℕ)
        (lam : ℚ) (oa : ℕ),
      (RandomCutForestModel.init none s nt rs ss pe tps lam oa).forest.dimensions
        ≠ s := by
  rintro ⟨s, nt, rs, ss, pe, tps, lam, oa, h⟩
  exact h rfl

/-- Claim C7 (amended): construction takes a single `shingle_size` parameter,
used directly as the underlying forest dimensionality; with all optional
parameters omitted it configures the forest with 100 trees, sample size 256,
time decay 0.0001, output-after 256, and parallel execution enabled. -/
theorem construct_defaults (s : ℕ) :
    RandomCutForestModel.initDefaults s =
      RandomCutForestModel.init none s 100 none 256 true none (1 / 10000)
        256 ∧
    (RandomCutForestModel.initDefaults s).forest.numberOfTrees = 100 ∧
    (RandomCutForestModel.initDefaults s).forest.sampleSize = 256 ∧
    (RandomCutForestModel.initDefaults s).forest.timeDecay = 1 / 10000 ∧
    (RandomCutForestModel.initDefaults s).forest.outputAfter = 256 ∧
    (RandomCutForestModel.initDefaults s).forest.parallelExecutionEnabled
      = true ∧
    (RandomCutForestModel.initDefaults s).forest.dimensions = s :=
  ⟨rfl, rfl, rfl, rfl, rfl, rfl, rfl⟩

/-- Claim C8 (counterexample): the claim states that the
`scoreDifferencing=0.5` setting is applied to the calibration layer.  Two
constructions that differ only in the `score_differencing` argument — 0.5
versus 0.9 — build identical forests, so the parameter is accepted but never
applied. -/
theorem score_differencing_never_applied :
    TRandomCutForestModel.init 4 2 30 256 (1 / 200) (5 / 2) (1 / 2) 0 256 =
      TRandomCutForestModel.init 4 2 30 256 (1 / 200) (5 / 2) (9 / 10) 0
        256 ∧
    (1 / 2 : ℚ) ≠ (9 / 10 : ℚ) :=
  ⟨rfl, by norm_num⟩

/-- Claim C8 (amended): thresholded-forest construction with the optional
parameters omitted configures the wrapped ensemble with 30 trees, sample size
256, output-after 256, anomaly rate 0.005 and z-factor 2.5; the
`score_differencing` parameter (default 0.5) and `ignore_delta_threshold`
parameter are accepted but never applied to the forest. -/
theorem thresholded_construct_defaults (d s : ℕ) :
    TRandomCutForestModel.initDefaults d s =
      TRandomCutForestModel.init d s 30 256 (1 / 200) (5 / 2) (1 / 2) 0
        256 ∧
    (TRandomCutForestModel.initDefaults d s).numberOfTrees = 30 ∧
    (TRandomCutForestModel.initDefaults d s).sampleSize = 256 ∧
    (TRandomCutForestModel.initDefaults d s).outputAfter = 256 ∧
    (TRandomCutForestModel.initDefaults d s).anomalyRate = 1 / 200 ∧
    (TRandomCutForestModel.initDefaults d s).zFactor = 5 / 2 ∧
    ∀ (sd idt : ℚ),
      TRandomCutForestModel.init d s 30 256 (1 / 200) (5 / 2) sd idt 256 =
        TRandomCutForestModel.initDefaults d s :=
  ⟨rfl, rfl, rfl, rfl, rfl, rfl, fun _ _ => rfl⟩

/-- Claim C9: for a point of the configured length, `forecast` calls the
extrapolation with horizon 1 and block size 1, the extrapolation produces
exactly one value, and `forecast` returns that first and only value. -/
theorem forecast_one_step (m : RandomCutForestModel) (p : List Value)
    (hp : p.length = m.forest.dimensions) :
    m.forest.extrapolateBasic p 1 1 false 0 =
      Except.ok (m.forest.extrapolateLoop 1 1 p) ∧
    (m.forest.extrapolateLoop 1 1 p).length = 1 ∧
    m.forecast p =
      Except.ok ((m.forest.extrapolateLoop 1 1 p).getD 0 Value.nan) := by
  have h1 : m.forest.extrapolateBasic p 1 1 false 0 =
      Except.ok (m.forest.extrapolateLoop 1 1 p) := by
    simp [RandomCutForest.extrapolateBasic, hp]
  refine ⟨h1, ?_, ?_⟩
  · show (m.forest.extrapolateLoop 1 (0 + 1) p).length = 1
    simp [RandomCutForest.extrapolateLoop]
  · simp [RandomCutForestModel.forecast, h1]

/-- Claim C9 (witness): one-step forecasting of the point `[1, 2]` over the
default 2-dimensional forest. -/
theorem forecast_one_step_witness :
    ([Value.num 1, Value.num 2].length =
      (RandomCutForestModel.initDefaults 2).forest.dimensions) ∧
    ((RandomCutForestModel.initDefaults 2).forest.extrapolateBasic
        [Value.num 1, Value.num 2] 1 1 false 0 =
      Except.ok ((RandomCutForestModel.initDefaults 2).forest.extrapolateLoop
        1 1 [Value.num 1, Value.num 2]) ∧
    ((RandomCutForestModel.initDefaults 2).forest.extrapolateLoop 1 1
      [Value.num 1, Value.num 2]).length = 1 ∧
    (RandomCutForestModel.initDefaults 2).forecast
        [Value.num 1, Value.num 2] =
      Except.ok (((RandomCutForestModel.initDefaults 2).forest.extrapolateLoop
        1 1 [Value.num 1, Value.num 2]).getD 0 Value.nan)) :=
  ⟨by decide,
    forecast_one_step (RandomCutForestModel.initDefaults 2)
      [Value.num 1, Value.num 2] (by decide)⟩

/-- Claim C10: construction sets the underlying forest dimensionality to the
shingle-size argument alone, and the `shingle_size` property reads back
exactly that dimensionality. -/
theorem shingle_size_reads_dimensions (m : RandomCutForestModel) (s nt : ℕ)
    (rs : Option ℤ) (ss : ℕ) (pe : Bool) (tps : Option ℕ) (lam : ℚ)
    (oa : ℕ) :
    m.shingle_size = m.forest.dimensions ∧
    (RandomCutForestModel.init none s nt rs ss pe tps lam
      oa).forest.dimensions = s ∧
    (RandomCutForestModel.init none s nt rs ss pe tps lam oa).shingle_size
      = s :=
  ⟨rfl, rfl, rfl⟩

end PyRcf
